import Mathlib

/-!
Verification of the treasury transaction-review pipeline.

The definitions below are a shallow embedding of the rule-based scoring
tools in src/tool.py (IntentAnalysisTool, RiskAssessmentTool,
PolicyValidationTool, LiquidityCheckTool, AuditLogTool).  Monetary
amounts and scores are embedded as rationals; the floating-point values
appearing in the program are exactly representable at the magnitudes and
comparisons involved, so the rational embedding is faithful.  Timestamp
parsing (datetime.fromisoformat) is fallible and is embedded as an
Option-valued parse result carrying the hour and weekday fields that the
code reads.  Wall-clock reads (datetime.now) are explicit parameters.
-/

namespace Treasury

/-- Python substring containment (`pat in s`) on strings. -/
def strContains (s pat : String) : Bool :=
  s.toList.tails.any (fun t => pat.toList.isPrefixOf t)

/-- Python str.lower, embedded characterwise. -/
def strLower (s : String) : String :=
  (s.toList.map Char.toLower).asString

/-- Result of a successful datetime.fromisoformat parse: the fields the
code reads.  hour is 0-23; weekday is 0 (Monday) to 6 (Sunday). -/
structure DT where
  hour : Nat
  weekday : Nat
deriving DecidableEq

/-! ## IntentAnalysisTool (tool.py lines 30-99) -/

structure IntentOutput where
  intent : String
  urgency : String
  confidence : ℚ
  matchedKeywords : List String
  isOffHours : Bool
  amountCategory : String
deriving DecidableEq

/-- tool.py lines 42-50: the intent keyword table, in insertion order
(Python dict iteration order), scanned first-match-wins. -/
def intentKeywordTable : List (String × List String) :=
  [("refund", ["refund", "return", "reimbursement", "reversal"]),
   ("payroll", ["salary", "wage", "payroll", "compensation", "bonus"]),
   ("vendor", ["vendor", "supplier", "invoice", "payment", "purchase"]),
   ("investment", ["investment", "equity", "acquisition", "stake"]),
   ("emergency", ["urgent", "emergency", "critical", "immediate"]),
   ("tax", ["tax", "vat", "hmrc", "duty"]),
   ("loan", ["loan", "credit", "financing", "borrowing"])]

/-- tool.py line 65. -/
def urgencyKeywords : List String :=
  ["urgent", "emergency", "immediate", "asap", "critical"]

/-- tool.py line 93: amount bucket of the intent classifier. -/
def amountCategory (amount : ℚ) : String :=
  if amount > 25000 then "high" else if amount > 5000 then "medium" else "low"

/-- tool.py lines 80-85: off-hours flag; on parse failure the except
branch yields False. -/
def offHoursFlag : Option DT → Bool
  | some dt => decide (dt.hour < 6) || decide (dt.hour > 22)
  | none => false

/-- IntentAnalysisTool._run (tool.py lines 30-99).  The sender, receiver
and context arguments do not influence any structured output field (they
only appear in free text), so they are not parameters here; the
timestamp argument enters through its parse result. -/
def intentAnalyze (amount : ℚ) (purpose : String) (parsedTime : Option DT) :
    IntentOutput :=
  let purposeLower := strLower purpose
  let found := intentKeywordTable.find?
    (fun p => p.2.any (fun kw => strContains purposeLower kw))
  let detectedIntent := (found.map Prod.fst).getD "general"
  let matched :=
    (found.map (fun p => p.2.filter (fun kw => strContains purposeLower kw))).getD []
  let urgencyFromKw :=
    if urgencyKeywords.any (fun kw => strContains purposeLower kw) then "high"
    else "medium"
  let urgency :=
    if amount > 50000 then "high"
    else if amount < 1000 then "low"
    else urgencyFromKw
  let confidenceFromKw : ℚ := if matched.isEmpty then 0.60 else 0.95
  let confidence : ℚ :=
    if detectedIntent = "general" then 0.50 else confidenceFromKw
  { intent := detectedIntent
    urgency := urgency
    confidence := confidence
    matchedKeywords := matched
    isOffHours := offHoursFlag parsedTime
    amountCategory := amountCategory amount }

/-! ## RiskAssessmentTool (tool.py lines 124-222) -/

structure RiskInput where
  amount : ℚ
  sender : String
  receiver : String
  intent : String
  parsedTime : Option DT
  senderHistory : String

structure RiskOutput where
  riskScore : ℚ
  riskLevel : String
  riskFactors : List String
  requiresReview : Bool
  recommendation : String
deriving DecidableEq

/-- tool.py lines 139-147: amount-based risk, a single if/elif/elif
chain, so only the highest matching tier fires. -/
def amountTier (amount : ℚ) : ℚ × List String :=
  if amount > 100000 then (0.25, ["very_high_amount"])
  else if amount > 50000 then (0.15, ["high_amount"])
  else if amount > 25000 then (0.08, ["elevated_amount"])
  else (0, [])

/-- tool.py lines 150-166: time-based risk.  The off-hours and weekend
rules both live inside the try block, so a parse failure takes the
except branch and yields only the flat 0.05 penalty. -/
def timeRisk : Option DT → ℚ × List String
  | some dt =>
      let offRule : ℚ × List String :=
        if dt.hour < 6 ∨ dt.hour > 22 then (0.12, ["off_hours_transaction"])
        else (0, [])
      let weekendRule : ℚ × List String :=
        if dt.weekday ≥ 5 then (0.08, ["weekend_transaction"]) else (0, [])
      (offRule.1 + weekendRule.1, offRule.2 ++ weekendRule.2)
  | none => (0.05, ["invalid_timestamp"])

/-- tool.py line 170. -/
def suspiciousPatterns : List String :=
  ["unknown", "temp", "test", "cash", "personal"]

/-- tool.py lines 168-173: receiver risk. -/
def receiverRisk (receiver : String) : ℚ × List String :=
  if suspiciousPatterns.any (fun p => strContains (strLower receiver) p) then
    (0.20, ["suspicious_receiver"])
  else (0, [])

/-- tool.py lines 175-181: sender-history risk. -/
def historyRisk (senderHistory : String) : ℚ × List String :=
  if strLower senderHistory = "unknown" then (0.10, ["unknown_sender_history"])
  else if strContains (strLower senderHistory) "new" then (0.08, ["new_sender"])
  else (0, [])

/-- tool.py line 184. -/
def highRiskIntents : List String := ["emergency", "general", "loan"]

/-- tool.py lines 183-187: intent-based risk. -/
def intentRisk (intent : String) : ℚ × List String :=
  if intent ∈ highRiskIntents then (0.10, ["high_risk_intent_" ++ intent])
  else (0, [])

/-- tool.py lines 189-192: round-number risk.  The test
amount % 10000 == 0 holds exactly when the amount is an integer
multiple of 10000, i.e. when amount / 10000 has denominator 1. -/
def roundAmountRisk (amount : ℚ) : ℚ × List String :=
  if (amount / 10000).den = 1 ∧ amount ≥ 10000 then
    (0.05, ["suspicious_round_amount"])
  else (0, [])

/-- RiskAssessmentTool._run (tool.py lines 124-222).  The six additive
rules fire independently; the score is capped at 1.0 (line 195).  The
reported score is round(risk_score, 2); every rule contributes an
integer multiple of 1/100, so that rounding is the identity and is
omitted. -/
def riskAssess (i : RiskInput) : RiskOutput :=
  let a := amountTier i.amount
  let t := timeRisk i.parsedTime
  let r := receiverRisk i.receiver
  let hist := historyRisk i.senderHistory
  let n := intentRisk i.intent
  let m := roundAmountRisk i.amount
  let score := min (a.1 + t.1 + r.1 + hist.1 + n.1 + m.1) 1
  { riskScore := score
    riskLevel :=
      if score < 0.25 then "low"
      else if score < 0.50 then "medium"
      else if score < 0.75 then "high"
      else "critical"
    riskFactors := a.2 ++ t.2 ++ r.2 ++ hist.2 ++ n.2 ++ m.2
    requiresReview := decide (score ≥ 0.50)
    recommendation :=
      if score ≥ 0.75 then "REJECT - Too risky"
      else if score ≥ 0.50 then "ESCALATE - Human review required"
      else if score ≥ 0.25 then "PROCEED - Acceptable risk"
      else "APPROVE - Low risk" }

/-! ## PolicyValidationTool (tool.py lines 246-348) -/

/-- Violation kinds, one per violations.append site in
PolicyValidationTool._run, in source order. -/
inductive PolicyViolation where
  | spendingLimitExceeded
  | needsManagerApproval
  | needsDirectorAuth
  | needsDualAuth
  | blockedReceiver
  | dailyLimitExceeded
deriving DecidableEq

/-- Warning kinds, one per warnings.append site in
PolicyValidationTool._run, in source order. -/
inductive PolicyWarning where
  | postPaymentAudit
  | amlKyc
deriving DecidableEq

structure PolicyInput where
  amount : ℚ
  intent : String
  sender : String
  receiver : String
  urgency : String

structure PolicyOutput where
  policyPassed : Bool
  violations : List PolicyViolation
  warnings : List PolicyWarning
  applicableLimit : ℚ
  amountWithinLimit : Bool
  approvalLevelRequired : String
  complianceScore : ℚ
deriving DecidableEq

/-- tool.py lines 257-266 and 273: spending_limits.get with the
"general" entry (5000) as default for unknown intents. -/
def spendingLimit (intent : String) : ℚ :=
  if intent = "refund" then 15000
  else if intent = "vendor" then 30000
  else if intent = "payroll" then 150000
  else if intent = "investment" then 100000
  else if intent = "emergency" then 50000
  else if intent = "tax" then 200000
  else if intent = "loan" then 75000
  else 5000

/-- tool.py line 303. -/
def blockedKeywords : List String := ["sanctioned", "blacklist", "blocked"]

/-- PolicyValidationTool._run (tool.py lines 246-348).  Each numbered
check appends its violation or warning independently; policy_passed is
the flag that is set to False exactly when some violation is appended,
hence equals violations.isEmpty. -/
def policyValidate (i : PolicyInput) : PolicyOutput :=
  let limit := spendingLimit i.intent
  let v1 : List PolicyViolation :=
    if i.amount > limit then [.spendingLimitExceeded] else []
  let v2 : List PolicyViolation :=
    if i.amount > 10000 ∧ strContains (strLower i.sender) "approved" = false ∧
        strContains (strLower i.sender) "manager" = false then
      [.needsManagerApproval]
    else []
  let v3 : List PolicyViolation :=
    if i.amount > 50000 ∧ strContains (strLower i.sender) "director" = false then
      [.needsDirectorAuth]
    else []
  let v4 : List PolicyViolation :=
    if i.amount > 100000 then [.needsDualAuth] else []
  let v5 : List PolicyViolation :=
    if blockedKeywords.any (fun kw => strContains (strLower i.receiver) kw) then
      [.blockedReceiver]
    else []
  let v6 : List PolicyViolation :=
    if i.amount > 200000 then [.dailyLimitExceeded] else []
  let violations := v1 ++ v2 ++ v3 ++ v4 ++ v5 ++ v6
  let w1 : List PolicyWarning :=
    if i.urgency = "high" ∧ i.amount > 25000 then [.postPaymentAudit] else []
  let w2 : List PolicyWarning :=
    if i.amount > 10000 then [.amlKyc] else []
  let warnings := w1 ++ w2
  let passed := violations.isEmpty
  { policyPassed := passed
    violations := violations
    warnings := warnings
    applicableLimit := limit
    amountWithinLimit := decide (i.amount ≤ limit)
    approvalLevelRequired :=
      if i.amount > 100000 then "dual_authorization"
      else if i.amount > 50000 then "director"
      else if i.amount > 10000 then "manager"
      else "standard"
    complianceScore :=
      if passed && warnings.isEmpty then 1
      else if passed then 0.7
      else 0 }

/-! ## LiquidityCheckTool (tool.py lines 370-459) -/

structure LiquidityOutput where
  sufficientFunds : Bool
  financiallyViable : Bool
  currentBalance : ℚ
  remainingBalance : ℚ
  minimumReserve : ℚ
  reserveCushion : ℚ
  dailyLimit : ℚ
  withinDailyLimit : Bool
  monthlyBudgetRemaining : ℚ
  withinBudget : Bool
  warnings : List String
  concerns : List String
  cashFlowImpact : String
  liquidityHealth : String
deriving DecidableEq

/-- tool.py lines 379-386: the simulated account table with fallback
balance 150000 for unknown account ids. -/
def accountBalance (accountId : String) : ℚ :=
  if accountId = "primary" then 180000
  else if accountId = "reserve" then 50000
  else if accountId = "payroll" then 200000
  else if accountId = "operations" then 75000
  else 150000

/-- LiquidityCheckTool._run (tool.py lines 370-459).  The warnings and
concerns lists carry one fixed tag per append site. -/
def liquidityCheck (amount : ℚ) (accountId : String) (intent : String) :
    LiquidityOutput :=
  let currentBalance := accountBalance accountId
  let minimumReserve : ℚ := 25000
  let dailyTransactionLimit : ℚ := 75000
  let monthlyBudgetRemaining : ℚ := 150000
  let remainingBalance := currentBalance - amount
  let sufficientFunds := decide (remainingBalance ≥ minimumReserve)
  let withinDailyLimit := decide (amount ≤ dailyTransactionLimit)
  let withinBudget := decide (amount ≤ monthlyBudgetRemaining)
  let concerns : List String :=
    (if remainingBalance < minimumReserve then ["breach_minimum_reserve"] else []) ++
    (if amount > dailyTransactionLimit then ["exceeds_daily_limit"] else [])
  let warnings : List String :=
    (if remainingBalance < minimumReserve * 1.2 then ["near_reserve_threshold"] else []) ++
    (if amount > currentBalance * 0.5 then ["high_liquidity_impact"] else [])
  { sufficientFunds := sufficientFunds
    financiallyViable := sufficientFunds && withinDailyLimit && withinBudget
    currentBalance := currentBalance
    remainingBalance := remainingBalance
    minimumReserve := minimumReserve
    reserveCushion := if sufficientFunds then remainingBalance - minimumReserve else 0
    dailyLimit := dailyTransactionLimit
    withinDailyLimit := withinDailyLimit
    monthlyBudgetRemaining := monthlyBudgetRemaining
    withinBudget := withinBudget
    warnings := warnings
    concerns := concerns
    cashFlowImpact :=
      if intent = "emergency" then "high_priority"
      else if amount > 50000 then "significant"
      else if amount > 10000 then "moderate"
      else "minimal"
    liquidityHealth :=
      if remainingBalance > minimumReserve * 3 then "excellent"
      else if remainingBalance > minimumReserve * 2 then "good"
      else if sufficientFunds then "adequate"
      else "insufficient" }

/-! ## DecisionEngine -/

/-- Modelled from the spec: the repository delegates the final-decision
stage to an external language-model agent (crewai.py lines 149-164 run a
crew around decision_agent; task.py lines 185-232 state the decision
matrix only as prompt text), so no deterministic decision function
exists in the source.  Section 4.5 of the spec defines the DecisionEngine
as priority-ordered rules over the four upstream stage results: reject
on high or critical risk, failed policy, or financial non-viability;
escalate on medium risk, warnings combined with elevated risk, or low
confidence; otherwise approve. -/
def decisionEngine (intentRes : IntentOutput) (riskRes : RiskOutput)
    (policyRes : PolicyOutput) (liquidityRes : LiquidityOutput) : String :=
  if riskRes.riskLevel = "high" ∨ riskRes.riskLevel = "critical" then "reject"
  else if policyRes.policyPassed = false then "reject"
  else if liquidityRes.financiallyViable = false then "reject"
  else if riskRes.riskLevel = "medium" then "escalate"
  else if policyRes.warnings.isEmpty = false ∧ riskRes.requiresReview then "escalate"
  else if intentRes.confidence < 0.5 then "escalate"
  else "approve"

/-! ## AuditLogTool (tool.py lines 483-549) -/

/-- The dictionary passed to hash(json.dumps(..., sort_keys=True)) at
tool.py lines 521-525: it has exactly the keys tx_id, decision and
timestamp, the last being a fresh datetime.now().isoformat() read at
hashing time.  Whatever integer Python hash then produces is a function
of this payload alone, so payload equality forces hash equality. -/
structure HashPayload where
  txId : String
  decision : String
  timestamp : String
deriving DecidableEq

structure AuditRecord where
  auditId : String
  transactionId : String
  timestamp : String
  decision : String
  decisionMaker : String
  rationale : String
  agentOutputs : String
  verificationPayload : HashPayload
deriving DecidableEq

/-- AuditLogTool._run (tool.py lines 483-549), restricted to the fields
the audit claims are about.  The wall-clock reads of datetime.now()
are the explicit parameter nowIso; the JSON round-trip of agent_outputs
is kept as the raw string since no hashed or compared field depends on
its parsed form. -/
def auditLog (transactionId decision agentOutputs rationale decisionMaker
    nowIso : String) : AuditRecord :=
  { auditId := "AUDIT-" ++ transactionId
    transactionId := transactionId
    timestamp := nowIso
    decision := decision
    decisionMaker := decisionMaker
    rationale := rationale
    agentOutputs := agentOutputs
    verificationPayload :=
      { txId := transactionId, decision := decision, timestamp := nowIso } }

/-! ## Helper lemmas -/

lemma mem_ite_singleton {α : Type} (a b : α) (c : Prop) [Decidable c] :
    a ∈ (if c then [b] else ([] : List α)) ↔ c ∧ a = b := by
  split_ifs with h <;> simp [h]

lemma amountTier_tags_sub (a : ℚ) :
    (amountTier a).2 ⊆ ["very_high_amount", "high_amount", "elevated_amount"] := by
  unfold amountTier; split_ifs <;> simp

lemma timeRisk_tags_sub (t : Option DT) :
    (timeRisk t).2 ⊆
      ["off_hours_transaction", "weekend_transaction", "invalid_timestamp"] := by
  cases t with
  | none => simp [timeRisk]
  | some dt =>
      simp only [timeRisk]
      split_ifs <;> simp

lemma receiverRisk_tags_sub (r : String) :
    (receiverRisk r).2 ⊆ ["suspicious_receiver"] := by
  unfold receiverRisk; split_ifs <;> simp

lemma historyRisk_tags_sub (s : String) :
    (historyRisk s).2 ⊆ ["unknown_sender_history", "new_sender"] := by
  unfold historyRisk; split_ifs <;> simp

lemma intentRisk_tags_sub (it : String) :
    (intentRisk it).2 ⊆
      ["high_risk_intent_emergency", "high_risk_intent_general",
       "high_risk_intent_loan"] := by
  unfold intentRisk
  split_ifs with h
  · simp only [highRiskIntents, List.mem_cons, List.not_mem_nil, or_false] at h
    rcases h with h | h | h <;> subst h <;> decide
  · simp

lemma roundAmountRisk_tags_sub (a : ℚ) :
    (roundAmountRisk a).2 ⊆ ["suspicious_round_amount"] := by
  unfold roundAmountRisk; split_ifs <;> simp

lemma mem_riskFactors (i : RiskInput) (tag : String) :
    tag ∈ (riskAssess i).riskFactors ↔
      tag ∈ (amountTier i.amount).2 ∨ tag ∈ (timeRisk i.parsedTime).2 ∨
      tag ∈ (receiverRisk i.receiver).2 ∨ tag ∈ (historyRisk i.senderHistory).2 ∨
      tag ∈ (intentRisk i.intent).2 ∨ tag ∈ (roundAmountRisk i.amount).2 := by
  simp [riskAssess, List.mem_append, or_assoc]

lemma not_mem_riskFactors (i : RiskInput) (tag : String)
    (h1 : tag ∉ (["very_high_amount", "high_amount", "elevated_amount"] : List String))
    (h2 : tag ∉ (timeRisk i.parsedTime).2)
    (h3 : tag ∉ (["suspicious_receiver"] : List String))
    (h4 : tag ∉ (["unknown_sender_history", "new_sender"] : List String))
    (h5 : tag ∉ (["high_risk_intent_emergency", "high_risk_intent_general",
                  "high_risk_intent_loan"] : List String))
    (h6 : tag ∉ (["suspicious_round_amount"] : List String)) :
    tag ∉ (riskAssess i).riskFactors := by
  rw [mem_riskFactors]
  rintro (h | h | h | h | h | h)
  · exact h1 (amountTier_tags_sub _ h)
  · exact h2 h
  · exact h3 (receiverRisk_tags_sub _ h)
  · exact h4 (historyRisk_tags_sub _ h)
  · exact h5 (intentRisk_tags_sub _ h)
  · exact h6 (roundAmountRisk_tags_sub _ h)

lemma amountTier_nonneg (a : ℚ) : 0 ≤ (amountTier a).1 := by
  unfold amountTier; split_ifs <;> norm_num

lemma timeRisk_nonneg (t : Option DT) : 0 ≤ (timeRisk t).1 := by
  cases t with
  | none => norm_num [timeRisk]
  | some dt =>
      simp only [timeRisk]
      split_ifs <;> norm_num

lemma receiverRisk_nonneg (r : String) : 0 ≤ (receiverRisk r).1 := by
  unfold receiverRisk; split_ifs <;> norm_num

lemma historyRisk_nonneg (s : String) : 0 ≤ (historyRisk s).1 := by
  unfold historyRisk; split_ifs <;> norm_num

lemma intentRisk_nonneg (it : String) : 0 ≤ (intentRisk it).1 := by
  unfold intentRisk; split_ifs <;> norm_num

lemma roundAmountRisk_nonneg (a : ℚ) : 0 ≤ (roundAmountRisk a).1 := by
  unfold roundAmountRisk; split_ifs <;> norm_num

/-! ## Claims -/

/-- Claim C1 (code bug): the verification hash of AuditLogTool._run is
computed over a payload holding only the transaction id, the decision,
and a fresh wall-clock timestamp.  At one fixed instant, two audit
records that differ only in their stage outputs hash the very same
payload, so no mutation of a stage output can ever change the hash; and
the same stable inputs hashed at a later instant yield a different
payload, so recomputation over unchanged stable fields does not
reproduce the stored hash. -/
theorem auditHash_ignores_outputs_and_tracks_clock :
    ((auditLog "TXN-001" "APPROVE" "stage outputs A" "ok" "AI Treasury System"
        "2026-01-03T00:30:00").verificationPayload =
      (auditLog "TXN-001" "APPROVE" "stage outputs B" "ok" "AI Treasury System"
        "2026-01-03T00:30:00").verificationPayload) ∧
    ("stage outputs A" ≠ "stage outputs B") ∧
    ((auditLog "TXN-001" "APPROVE" "stage outputs A" "ok" "AI Treasury System"
        "2026-01-03T00:30:00").verificationPayload ≠
      (auditLog "TXN-001" "APPROVE" "stage outputs A" "ok" "AI Treasury System"
        "2026-01-03T00:30:05").verificationPayload) :=
  ⟨rfl, by decide, by decide⟩

/-- Claim C2: the DecisionEngine is a pure deterministic function of
the four upstream stage results: identical intent, risk, policy and
liquidity results always produce the identical decision. -/
theorem decisionEngine_deterministic (i1 i2 : IntentOutput) (r1 r2 : RiskOutput)
    (p1 p2 : PolicyOutput) (l1 l2 : LiquidityOutput)
    (hi : i1 = i2) (hr : r1 = r2) (hp : p1 = p2) (hl : l1 = l2) :
    decisionEngine i1 r1 p1 l1 = decisionEngine i2 r2 p2 l2 := by
  subst hi; subst hr; subst hp; subst hl; rfl

/-- Witness for C2 at the outputs the pipeline produces for a concrete
midnight vendor payment. -/
theorem decisionEngine_deterministic_witness :
    decisionEngine (intentAnalyze 7500 "vendor payment invoice" (some ⟨0, 5⟩))
        (riskAssess ⟨7500, "ops", "acme corp", "vendor", some ⟨0, 5⟩, "established"⟩)
        (policyValidate ⟨7500, "vendor", "ops", "acme corp", "medium"⟩)
        (liquidityCheck 7500 "primary" "vendor") =
      decisionEngine (intentAnalyze 7500 "vendor payment invoice" (some ⟨0, 5⟩))
        (riskAssess ⟨7500, "ops", "acme corp", "vendor", some ⟨0, 5⟩, "established"⟩)
        (policyValidate ⟨7500, "vendor", "ops", "acme corp", "medium"⟩)
        (liquidityCheck 7500 "primary" "vendor") :=
  decisionEngine_deterministic _ _ _ _ _ _ _ _ rfl rfl rfl rfl

/-- Claim C4: for every amount above 100000, PolicyValidator appends
the dual-authorization violation no matter what the sender text says,
and consequently policy_passed is false. -/
theorem dualAuth_violation_unconditional (i : PolicyInput)
    (h : (100000 : ℚ) < i.amount) :
    PolicyViolation.needsDualAuth ∈ (policyValidate i).violations ∧
    (policyValidate i).policyPassed = false := by
  have hmem : PolicyViolation.needsDualAuth ∈ (policyValidate i).violations := by
    simp only [policyValidate, List.mem_append, mem_ite_singleton]
    tauto
  refine ⟨hmem, ?_⟩
  have hne : (policyValidate i).violations ≠ [] := List.ne_nil_of_mem hmem
  have hp : (policyValidate i).policyPassed =
      (policyValidate i).violations.isEmpty := rfl
  rw [hp]
  cases hvl : (policyValidate i).violations with
  | nil => exact absurd hvl hne
  | cons a l => rfl

/-- Witness for C4 at amount 110000 with a sender text naming every
authority keyword. -/
theorem dualAuth_violation_unconditional_witness :
    PolicyViolation.needsDualAuth ∈
      (policyValidate ⟨110000, "vendor", "approved manager director", "acme corp",
        "medium"⟩).violations ∧
    (policyValidate ⟨110000, "vendor", "approved manager director", "acme corp",
      "medium"⟩).policyPassed = false :=
  dualAuth_violation_unconditional _ (by norm_num)

/-- Claim C10: LiquidityCheckTool reports a transaction financially
viable only when the amount is within the fixed daily transaction limit
of 75000; above that limit the verdict is not viable for every account
id and intent. -/
theorem financiallyViable_requires_daily_cap (amount : ℚ)
    (accountId intent : String) :
    ((liquidityCheck amount accountId intent).financiallyViable = true →
      amount ≤ 75000) ∧
    ((75000 : ℚ) < amount →
      (liquidityCheck amount accountId intent).financiallyViable = false) := by
  have hv : (liquidityCheck amount accountId intent).financiallyViable =
      (decide (accountBalance accountId - amount ≥ 25000) &&
        decide (amount ≤ 75000) && decide (amount ≤ 150000)) := rfl
  constructor
  · intro h
    rw [hv] at h
    have h2 := (Bool.and_eq_true _ _).mp ((Bool.and_eq_true _ _).mp h).1
    exact of_decide_eq_true h2.2
  · intro h
    rw [hv]
    have hd : decide (amount ≤ 75000) = false :=
      decide_eq_false (not_le.mpr h)
    simp [hd]

/-- Witness for C10 at amount 80000 from the primary account. -/
theorem financiallyViable_requires_daily_cap_witness :
    (liquidityCheck 80000 "primary" "general").financiallyViable = false :=
  (financiallyViable_requires_daily_cap 80000 "primary" "general").2 (by norm_num)

/-- Claim C3 (counterexample): at amount exactly 100000 the code takes
the strict elif branch amount > 50000, contributing the high_amount tier
and not the very_high_amount tier, so the claim as stated for all
amounts greater than or equal to 100000 fails at 100000. -/
theorem riskTier_at_100000_not_very_high :
    ((100000 : ℚ) ≥ 100000) ∧
    "very_high_amount" ∉
      (riskAssess ⟨100000, "ops", "acme corp", "vendor", some ⟨14, 2⟩,
        "established"⟩).riskFactors ∧
    "high_amount" ∈
      (riskAssess ⟨100000, "ops", "acme corp", "vendor", some ⟨14, 2⟩,
        "established"⟩).riskFactors := by
  have ha : amountTier 100000 = (0.15, ["high_amount"]) := by
    unfold amountTier
    rw [if_neg (by norm_num), if_pos (by norm_num)]
  have ht : timeRisk (some ⟨14, 2⟩) = (0, []) := by
    simp only [timeRisk]
    rw [if_neg (by decide), if_neg (by decide)]
    simp
  have hr : receiverRisk "acme corp" = (0, []) := by
    unfold receiverRisk; rw [if_neg (by decide)]
  have hh : historyRisk "established" = (0, []) := by
    unfold historyRisk; rw [if_neg (by decide), if_neg (by decide)]
  have hn : intentRisk "vendor" = (0, []) := by
    unfold intentRisk; rw [if_neg (by decide)]
  have hm : roundAmountRisk 100000 = (0.05, ["suspicious_round_amount"]) := by
    unfold roundAmountRisk
    rw [if_pos]
    refine ⟨?_, by norm_num⟩
    rw [show ((100000 : ℚ) / 10000) = ((10 : ℤ) : ℚ) by norm_num]
    exact Rat.den_intCast 10
  have hf : (riskAssess ⟨100000, "ops", "acme corp", "vendor", some ⟨14, 2⟩,
      "established"⟩).riskFactors = ["high_amount", "suspicious_round_amount"] := by
    simp [riskAssess, ha, ht, hr, hh, hn, hm]
  refine ⟨le_refl _, ?_, ?_⟩ <;> rw [hf] <;> decide

/-- Claim C3 (amended): for every amount strictly greater than 100000,
the amount-tier rule contributes the very_high_amount tag and never the
high_amount or elevated_amount tags; the strict if/elif chain makes the
three tiers mutually exclusive with the highest matching tier winning. -/
theorem riskTier_above_100000_exclusive (i : RiskInput)
    (h : (100000 : ℚ) < i.amount) :
    "very_high_amount" ∈ (riskAssess i).riskFactors ∧
    "high_amount" ∉ (riskAssess i).riskFactors ∧
    "elevated_amount" ∉ (riskAssess i).riskFactors := by
  have ha : amountTier i.amount = (0.25, ["very_high_amount"]) := by
    unfold amountTier; rw [if_pos h]
  refine ⟨?_, ?_, ?_⟩
  · rw [mem_riskFactors]; left; rw [ha]; simp
  · rw [mem_riskFactors]
    rintro (hm | hm | hm | hm | hm | hm)
    · rw [ha] at hm; revert hm; decide
    · exact absurd (timeRisk_tags_sub _ hm) (by decide)
    · exact absurd (receiverRisk_tags_sub _ hm) (by decide)
    · exact absurd (historyRisk_tags_sub _ hm) (by decide)
    · exact absurd (intentRisk_tags_sub _ hm) (by decide)
    · exact absurd (roundAmountRisk_tags_sub _ hm) (by decide)
  · rw [mem_riskFactors]
    rintro (hm | hm | hm | hm | hm | hm)
    · rw [ha] at hm; revert hm; decide
    · exact absurd (timeRisk_tags_sub _ hm) (by decide)
    · exact absurd (receiverRisk_tags_sub _ hm) (by decide)
    · exact absurd (historyRisk_tags_sub _ hm) (by decide)
    · exact absurd (intentRisk_tags_sub _ hm) (by decide)
    · exact absurd (roundAmountRisk_tags_sub _ hm) (by decide)

/-- Witness for the amended C3 at amount 150000. -/
theorem riskTier_above_100000_exclusive_witness :
    "very_high_amount" ∈
      (riskAssess ⟨150000, "ops", "acme corp", "vendor", some ⟨14, 2⟩,
        "established"⟩).riskFactors ∧
    "high_amount" ∉
      (riskAssess ⟨150000, "ops", "acme corp", "vendor", some ⟨14, 2⟩,
        "established"⟩).riskFactors ∧
    "elevated_amount" ∉
      (riskAssess ⟨150000, "ops", "acme corp", "vendor", some ⟨14, 2⟩,
        "established"⟩).riskFactors :=
  riskTier_above_100000_exclusive _ (by norm_num)

/-- Claim C5: for every intent category (including the default), an
amount exactly equal to the applicable spending limit passes the
spending-limit check with no spending-limit violation, while the limit
plus 0.01 triggers the spending-limit violation. -/
theorem spendingLimit_boundary (intent sender receiver urgency : String) :
    PolicyViolation.spendingLimitExceeded ∉
      (policyValidate ⟨spendingLimit intent, intent, sender, receiver,
        urgency⟩).violations ∧
    PolicyViolation.spendingLimitExceeded ∈
      (policyValidate ⟨spendingLimit intent + 0.01, intent, sender, receiver,
        urgency⟩).violations := by
  constructor
  · intro hm
    simp only [policyValidate, List.mem_append, mem_ite_singleton] at hm
    rcases hm with ((((h | h) | h) | h) | h) | h <;>
      first
        | exact lt_irrefl _ h.1
        | exact absurd h.2 (by decide)
  · simp only [policyValidate, List.mem_append, mem_ite_singleton]
    left; left; left; left; left
    refine ⟨?_, by trivial⟩
    have h01 : (0 : ℚ) < 0.01 := by norm_num
    linarith

/-- Witness for C5 at the refund limit. -/
theorem spendingLimit_boundary_witness :
    PolicyViolation.spendingLimitExceeded ∉
      (policyValidate ⟨spendingLimit "refund", "refund", "ops", "acme corp",
        "medium"⟩).violations ∧
    PolicyViolation.spendingLimitExceeded ∈
      (policyValidate ⟨spendingLimit "refund" + 0.01, "refund", "ops", "acme corp",
        "medium"⟩).violations :=
  spendingLimit_boundary "refund" "ops" "acme corp" "medium"

/-- Claim C6: whenever the timestamp fails to parse, the risk scorer
adds exactly the flat 0.05 time penalty with the invalid_timestamp tag
and contributes neither the off-hours nor the weekend tag, and the
intent classifier reports the off-hours flag as false instead of
raising. -/
theorem invalid_timestamp_flat_penalty (amount : ℚ)
    (sender receiver intent senderHistory purpose : String) :
    timeRisk none = (0.05, ["invalid_timestamp"]) ∧
    "invalid_timestamp" ∈
      (riskAssess ⟨amount, sender, receiver, intent, none, senderHistory⟩).riskFactors ∧
    "off_hours_transaction" ∉
      (riskAssess ⟨amount, sender, receiver, intent, none, senderHistory⟩).riskFactors ∧
    "weekend_transaction" ∉
      (riskAssess ⟨amount, sender, receiver, intent, none, senderHistory⟩).riskFactors ∧
    (intentAnalyze amount purpose none).isOffHours = false := by
  refine ⟨rfl, ?_, ?_, ?_, rfl⟩
  · rw [mem_riskFactors]
    right; left
    simp [timeRisk]
  · exact not_mem_riskFactors
      ⟨amount, sender, receiver, intent, none, senderHistory⟩
      "off_hours_transaction" (by decide)
      (show "off_hours_transaction" ∉ (timeRisk none).2 by decide)
      (by decide) (by decide) (by decide) (by decide)
  · exact not_mem_riskFactors
      ⟨amount, sender, receiver, intent, none, senderHistory⟩
      "weekend_transaction" (by decide)
      (show "weekend_transaction" ∉ (timeRisk none).2 by decide)
      (by decide) (by decide) (by decide) (by decide)

/-- Witness for C6 at a concrete unparseable-timestamp run. -/
theorem invalid_timestamp_flat_penalty_witness :
    timeRisk none = (0.05, ["invalid_timestamp"]) ∧
    "invalid_timestamp" ∈
      (riskAssess ⟨7500, "ops", "acme corp", "vendor", none,
        "established"⟩).riskFactors ∧
    "off_hours_transaction" ∉
      (riskAssess ⟨7500, "ops", "acme corp", "vendor", none,
        "established"⟩).riskFactors ∧
    "weekend_transaction" ∉
      (riskAssess ⟨7500, "ops", "acme corp", "vendor", none,
        "established"⟩).riskFactors ∧
    (intentAnalyze 7500 "vendor payment invoice" none).isOffHours = false :=
  invalid_timestamp_flat_penalty 7500 "ops" "acme corp" "vendor" "established"
    "vendor payment invoice"

/-- Claim C7: for every input, the risk score returned by the risk
scorer lies in the closed interval from 0 to 1. -/
theorem riskScore_in_unit_interval (i : RiskInput) :
    0 ≤ (riskAssess i).riskScore ∧ (riskAssess i).riskScore ≤ 1 := by
  have hs : (riskAssess i).riskScore =
      min ((amountTier i.amount).1 + (timeRisk i.parsedTime).1 +
        (receiverRisk i.receiver).1 + (historyRisk i.senderHistory).1 +
        (intentRisk i.intent).1 + (roundAmountRisk i.amount).1) 1 := rfl
  constructor
  · rw [hs]
    refine le_min ?_ zero_le_one
    have h1 := amountTier_nonneg i.amount
    have h2 := timeRisk_nonneg i.parsedTime
    have h3 := receiverRisk_nonneg i.receiver
    have h4 := historyRisk_nonneg i.senderHistory
    have h5 := intentRisk_nonneg i.intent
    have h6 := roundAmountRisk_nonneg i.amount
    linarith
  · rw [hs]
    exact min_le_right _ _

/-- Claim C8 (counterexample): at amount exactly 5000 the classifier
takes the else branch of the strict comparison amount > 5000 and
reports the bucket "low", whereas the claim places every amount of at
least 5000 and at most 25000 in the "medium" bucket. -/
theorem amountCategory_at_5000_is_low :
    ((5000 : ℚ) ≥ 5000 ∧ (5000 : ℚ) ≤ 25000) ∧
    (intentAnalyze 5000 "vendor payment invoice" none).amountCategory = "low" ∧
    (intentAnalyze 5000 "vendor payment invoice" none).amountCategory ≠ "medium" := by
  have hc : (intentAnalyze 5000 "vendor payment invoice" none).amountCategory =
      amountCategory 5000 := rfl
  have hl : amountCategory 5000 = "low" := by
    unfold amountCategory
    rw [if_neg (by norm_num), if_neg (by norm_num)]
  refine ⟨⟨le_refl _, by norm_num⟩, ?_, ?_⟩
  · rw [hc, hl]
  · rw [hc, hl]; decide

/-- Claim C8 (amended): the intent classifier buckets an amount as
"low" exactly when it is at most 5000, as "medium" exactly when it is
strictly above 5000 and at most 25000, and as "high" exactly when it
is strictly above 25000. -/
theorem amountCategory_characterization (amount : ℚ) (purpose : String)
    (parsedTime : Option DT) :
    ((intentAnalyze amount purpose parsedTime).amountCategory = "low" ↔
      amount ≤ 5000) ∧
    ((intentAnalyze amount purpose parsedTime).amountCategory = "medium" ↔
      5000 < amount ∧ amount ≤ 25000) ∧
    ((intentAnalyze amount purpose parsedTime).amountCategory = "high" ↔
      25000 < amount) := by
  have hc : (intentAnalyze amount purpose parsedTime).amountCategory =
      amountCategory amount := rfl
  rw [hc]
  unfold amountCategory
  split_ifs with h1 h2
  · exact ⟨iff_of_false (by decide) (by intro hle; linarith),
      iff_of_false (by decide) (fun hx => by linarith [hx.2]),
      iff_of_true rfl h1⟩
  · exact ⟨iff_of_false (by decide) (by intro hle; linarith),
      iff_of_true rfl ⟨h2, not_lt.mp h1⟩,
      iff_of_false (by decide) h1⟩
  · exact ⟨iff_of_true rfl (not_lt.mp h2),
      iff_of_false (by decide) (fun hx => h2 hx.1),
      iff_of_false (by decide) h1⟩

/-- Witness for the amended C8: amount 7000 lands in the medium
bucket. -/
theorem amountCategory_characterization_witness :
    (intentAnalyze 7000 "vendor payment invoice" none).amountCategory =
      "medium" :=
  (amountCategory_characterization 7000 "vendor payment invoice" none).2.1.mpr
    ⟨by norm_num, by norm_num⟩

/-- Claim C9: every amount above 10000 makes PolicyValidator append
the AML-KYC documentation warning, so its compliance score is never
1.0 there: it is 0.7 when the policy passes and 0.0 when it fails; and
a compliance score of 1.0 forces the amount to be at most 10000. -/
theorem complianceScore_aml (i : PolicyInput) :
    ((10000 : ℚ) < i.amount →
      PolicyWarning.amlKyc ∈ (policyValidate i).warnings ∧
      (policyValidate i).complianceScore ≠ 1 ∧
      (policyValidate i).complianceScore =
        (if (policyValidate i).policyPassed = true then (0.7 : ℚ) else 0)) ∧
    ((policyValidate i).complianceScore = 1 → i.amount ≤ 10000) := by
  have key : (10000 : ℚ) < i.amount →
      PolicyWarning.amlKyc ∈ (policyValidate i).warnings ∧
      (policyValidate i).complianceScore ≠ 1 ∧
      (policyValidate i).complianceScore =
        (if (policyValidate i).policyPassed = true then (0.7 : ℚ) else 0) := by
    intro h
    have hmem : PolicyWarning.amlKyc ∈ (policyValidate i).warnings := by
      simp only [policyValidate, List.mem_append, mem_ite_singleton]
      tauto
    have hne : (policyValidate i).warnings ≠ [] := List.ne_nil_of_mem hmem
    have hie : (policyValidate i).warnings.isEmpty = false := by
      cases hvl : (policyValidate i).warnings with
      | nil => exact absurd hvl hne
      | cons a l => rfl
    have hs : (policyValidate i).complianceScore =
        (if ((policyValidate i).policyPassed &&
            (policyValidate i).warnings.isEmpty) = true then (1 : ℚ)
          else if (policyValidate i).policyPassed = true then 0.7 else 0) := rfl
    rw [hie, Bool.and_false] at hs
    simp only [Bool.false_eq_true, if_false] at hs
    refine ⟨hmem, ?_, hs⟩
    rw [hs]
    cases hp : (policyValidate i).policyPassed <;> norm_num
  refine ⟨key, ?_⟩
  intro h1
  by_contra hgt
  push_neg at hgt
  exact (key hgt).2.1 h1

/-- Witness for C9 at amount 20000. -/
theorem complianceScore_aml_witness :
    PolicyWarning.amlKyc ∈
      (policyValidate ⟨20000, "vendor", "ops", "acme corp", "medium"⟩).warnings ∧
    (policyValidate ⟨20000, "vendor", "ops", "acme corp", "medium"⟩).complianceScore ≠ 1 ∧
    (policyValidate ⟨20000, "vendor", "ops", "acme corp", "medium"⟩).complianceScore =
      (if (policyValidate ⟨20000, "vendor", "ops", "acme corp",
          "medium"⟩).policyPassed = true then (0.7 : ℚ) else 0) :=
  (complianceScore_aml ⟨20000, "vendor", "ops", "acme corp", "medium"⟩).1
    (by norm_num)

end Treasury
